import Mathlib

/-
  Shallow embedding of src/WebserverModule.ts (repository ArcticZeroo/webserver-module).

  The TypeScript class WebserverModule is modelled as a record stored in a heap of
  module instances.  JavaScript object identity is modelled with explicit heaps:
  a State carries three stores (module instances, configuration records, express
  routers), each a total function from numeric ids, together with the number of
  allocated ids.  Mutation of an object in place is modelled by updating the store
  at the id of the object; passing an object by reference is modelled by passing
  its id.  The opaque collaborators are modelled minimally: a db handle is an
  opaque number, an express router is a list of mounts (pairs of a path prefix and
  the id of the mounted sub-router), and the logger is not modelled (nothing in
  the claims observes it).  The abstract hook start, which the base constructor
  invokes when startByDefault resolves true, is modelled as a per-instance
  invocation counter (the base class fixes only when the hook runs, not what a
  concrete subclass does in it).
-/

namespace WSSpec

abbrev ModuleId := Nat
abbrev RouterId := Nat
abbrev ConfigId := Nat
abbrev DbHandle := Nat

/-- The configuration record IWebserverModuleParams of src/WebserverModule.ts.
    Optional fields are Option values; for the field name both the JavaScript
    values undefined and null are modelled as none, since every use of the field
    in the source (the truthiness test in the name getter) treats them alike. -/
structure ConfigRecord where
  db : Option DbHandle
  app : RouterId
  startByDefault : Option Bool
  name : Option String
  routerPath : Option String
  loaderModule : Option ModuleId
  deriving DecidableEq, Repr

/-- One constructed WebserverModule instance.  Every constructed instance carries
    the capability marker __webserverModule (set by Object.defineProperty in the
    constructor), so the marker is not stored as a field: a value in the module
    store has it by construction.  startCalls counts invocations of the abstract
    start hook; data is the id of the configuration record retained by reference
    through the assignment this.data = data. -/
structure WebserverModule where
  _name : Option String
  ctorName : String
  db : Option DbHandle
  app : RouterId
  startByDefault : Bool
  children : List (String × ModuleId)
  parent : Option ModuleId
  data : ConfigId
  startCalls : Nat
  deriving DecidableEq, Repr

/-- An express router, reduced to what the source consumes: app.use(path, router)
    appends a mount of a sub-router under a path prefix. -/
structure RouterState where
  mounts : List (String × RouterId)
  deriving DecidableEq, Repr

/-- The heap: stores of module instances, configuration records and routers. -/
structure State where
  modules : ModuleId → WebserverModule
  nmodules : Nat
  configs : ConfigId → ConfigRecord
  nconfigs : Nat
  routers : RouterId → RouterState
  nrouters : Nat

/-- Collection.set of the children collection (a JavaScript Map): replace the
    value of an existing key in place, otherwise append the new entry. -/
def setEntry : List (String × ModuleId) → String → ModuleId → List (String × ModuleId)
  | [], k, v => [(k, v)]
  | e :: rest, k, v => if e.1 = k then (k, v) :: rest else e :: setEntry rest k v

/-- Lookup in the children collection by key. -/
def getEntry : List (String × ModuleId) → String → Option ModuleId
  | [], _ => none
  | e :: rest, k => if e.1 = k then some e.2 else getEntry rest k

/-- Number of entries of the children collection holding a given key. -/
def countKey : List (String × ModuleId) → String → Nat
  | [], _ => 0
  | e :: rest, k => (if e.1 = k then 1 else 0) + countKey rest k

/-- The name getter of src/WebserverModule.ts line 95:
    return this._name || this.constructor.name.
    The stored name wins when it is truthy (present and non-empty). -/
def moduleName (m : WebserverModule) : String :=
  match m._name with
  | some s => if s = "" then m.ctorName else s
  | none => m.ctorName

/-- Line 55 of the constructor: if startByDefault is undefined, write true into
    the caller supplied record (a mutation of the record in place). -/
def defaultStartByDefault (d : ConfigRecord) : ConfigRecord :=
  if d.startByDefault = none then { d with startByDefault := some true } else d

/-- Lines 68 to 74 of the constructor: when routerPath is truthy, allocate a
    fresh express router, mount it on the supplied router under the path, and
    return its id as the retained app; otherwise retain the supplied router.
    Returns the retained router id and the updated state. -/
def applyRouterPath (st : State) (d : ConfigRecord) : RouterId × State :=
  match d.routerPath with
  | some p =>
    if p = "" then (d.app, st)
    else
      let rid := st.nrouters
      let stA : State := { st with
        routers := fun j => if j = rid then { mounts := [] } else st.routers j,
        nrouters := rid + 1 }
      let stM : State := { stA with
        routers := fun j =>
          if j = d.app then { mounts := (stA.routers d.app).mounts ++ [(p, rid)] }
          else stA.routers j }
      (rid, stM)
  | none => (d.app, st)

/-- The constructor of WebserverModule (src/WebserverModule.ts lines 50 to 83),
    invoked on the configuration record at id cid; cn is the runtime name of the
    concrete class (this.constructor.name).  Steps, in source order: default the
    startByDefault field by mutating the record in place; retain the record by
    reference (this.data = data); copy name, db, startByDefault; create the empty
    children collection; apply the routerPath scoping; set parent from
    loaderModule when supplied; invoke start when startByDefault resolved true.
    Returns the updated state and the id of the new instance. -/
def mkWebserverModule (st : State) (cid : ConfigId) (cn : String) : State × ModuleId :=
  let d := defaultStartByDefault (st.configs cid)
  let st1 : State := { st with configs := fun j => if j = cid then d else st.configs j }
  let sbd := d.startByDefault.getD true
  let routed := applyRouterPath st1 d
  let m : WebserverModule := {
    _name := d.name, ctorName := cn, db := d.db, app := routed.1,
    startByDefault := sbd, children := [], parent := d.loaderModule,
    data := cid, startCalls := if sbd then 1 else 0 }
  ({ routed.2 with
      modules := fun j => if j = routed.2.nmodules then m else routed.2.modules j,
      nmodules := routed.2.nmodules + 1 },
   routed.2.nmodules)

/-- The module instance produced by running the constructor. -/
def builtModule (st : State) (cid : ConfigId) (cn : String) : WebserverModule :=
  (mkWebserverModule st cid cn).1.modules ((mkWebserverModule st cid cn).2)

/-- The state after running the constructor. -/
def builtState (st : State) (cid : ConfigId) (cn : String) : State :=
  (mkWebserverModule st cid cn).1

/-- A constructor function passed to loadChild.  good cn is a concrete subclass
    of WebserverModule with runtime class name cn (its construction runs the base
    constructor); bad is a constructible function whose instances lack the
    capability marker and are not derived from WebserverModule. -/
inductive Factory where
  | good (ctorName : String)
  | bad
  deriving DecidableEq, Repr

/-- A JavaScript value passed as the first argument of loadChild. -/
inductive JSArg where
  | module (id : ModuleId)
  | func (f : Factory)
  | number (n : Int)
  | str (s : String)
  | boolean (b : Bool)
  | object
  | jsNull
  | jsUndefined
  deriving DecidableEq, Repr

/-- The typeof operator on the modelled values. -/
def typeofName : JSArg → String
  | .module _ => "object"
  | .func _ => "function"
  | .number _ => "number"
  | .str _ => "string"
  | .boolean _ => "boolean"
  | .object => "object"
  | .jsNull => "object"
  | .jsUndefined => "undefined"

/-- The failure conditions loadChild can raise, all TypeError at runtime:
    invalidType is the throw at line 117 (Invalid type given for module loading,
    followed by the typeof of the value); notAModule is the throw at line 122
    (Module given to load should be a WebserverModule); nullPropertyRead is the
    TypeError raised inside isWebserverModule when the property read
    obj[__webserverModule] is evaluated on null (isNull true) or on undefined
    (isNull false). -/
inductive LoadError where
  | invalidType (typeName : String)
  | notAModule
  | nullPropertyRead (isNull : Bool)
  deriving DecidableEq, Repr

/-- WebserverModule.isWebserverModule (lines 148 to 150):
    typeof obj[isWebserverModuleProperty] is not undefined, or obj is an
    instance of WebserverModule.  On null and undefined the property read
    itself throws; every value in the module store carries the marker; every
    other modelled value lacks the marker and the ancestry. -/
def isWebserverModuleArg : JSArg → Except LoadError Bool
  | .jsNull => .error (.nullPropertyRead true)
  | .jsUndefined => .error (.nullPropertyRead false)
  | .module _ => .ok true
  | .func _ => .ok false
  | .number _ => .ok false
  | .str _ => .ok false
  | .boolean _ => .ok false
  | .object => .ok false

/-- The second parameter of loadChild: a partial configuration record.  An outer
    none means the field is absent from the object literal, so the spread
    ...data does not touch it; an outer some v means the field is present with
    value v and overrides the inherited value. -/
structure Overrides where
  db : Option (Option DbHandle) := none
  app : Option RouterId := none
  startByDefault : Option (Option Bool) := none
  name : Option (Option String) := none
  routerPath : Option (Option String) := none
  loaderModule : Option (Option ModuleId) := none
  deriving DecidableEq, Repr

/-- The empty object literal, the default value of the data parameter. -/
def noOverrides : Overrides := {}

/-- Field by field application of the spread ...data over a base record:
    a field present in the overrides wins, an absent field keeps the base. -/
def applyOverrides (base : ConfigRecord) (o : Overrides) : ConfigRecord :=
  { db := o.db.getD base.db
    app := o.app.getD base.app
    startByDefault := o.startByDefault.getD base.startByDefault
    name := o.name.getD base.name
    routerPath := o.routerPath.getD base.routerPath
    loaderModule := o.loaderModule.getD base.loaderModule }

/-- The object literal of line 115 of loadChild:
    followed by the spread of data.  The caller stored record is spread first,
    then loaderModule is set to the caller and name to null (none), then the
    overrides are spread last. -/
def loadChildSynthConfig (d : ConfigRecord) (caller : ModuleId) (o : Overrides) : ConfigRecord :=
  applyOverrides { d with loaderModule := some caller, name := none } o

/-- Assignment otherModule.parent = value on the instance at id m. -/
def setParent (st : State) (m : ModuleId) (p : Option ModuleId) : State :=
  { st with modules := fun j =>
      if j = m then { st.modules m with parent := p } else st.modules j }

/-- this.children.set(k, v) on the instance at id c. -/
def setChildEntry (st : State) (c : ModuleId) (k : String) (v : ModuleId) : State :=
  { st with modules := fun j =>
      if j = c then { st.modules c with children := setEntry (st.modules c).children k v }
      else st.modules j }

/-- The attachment tail of loadChild (lines 126 to 130):
    otherModule.parent = this; this.children.set(otherModule.name, otherModule);
    return otherModule. -/
def attach (st : State) (c m : ModuleId) : State × ModuleId :=
  let st1 := setParent st m (some c)
  let st2 := setChildEntry st1 c (moduleName (st1.modules m)) m
  (st2, m)

/-- loadChild of src/WebserverModule.ts lines 107 to 131, called on the instance
    at id c with first argument arg and second argument o.  Control flow of the
    source: the capability test isWebserverModule throws on null and undefined
    and accepts exactly module instances; a failing value that is a function is
    constructed with the synthesized configuration (the caller stored record
    this.data, with loaderModule set to the caller and name nulled, overridden by
    o) and the result is re-checked; a failing value that is not a function
    raises the invalid type error with its typeof; finally the module is
    attached and returned. -/
def loadChild (st : State) (c : ModuleId) (arg : JSArg) (o : Overrides) :
    Except LoadError (State × ModuleId) :=
  match arg with
  | .jsNull => .error (.nullPropertyRead true)
  | .jsUndefined => .error (.nullPropertyRead false)
  | .module m => .ok (attach st c m)
  | .func f =>
    let synth := loadChildSynthConfig (st.configs ((st.modules c).data)) c o
    let cid := st.nconfigs
    let st1 : State := { st with
      configs := fun j => if j = cid then synth else st.configs j,
      nconfigs := cid + 1 }
    match f with
    | .good cn =>
      let r := mkWebserverModule st1 cid cn
      .ok (attach r.1 c r.2)
    | .bad => .error .notAModule
  | other => .error (.invalidType (typeofName other))

/-
  Helper lemmas about the children collection.
-/

theorem getEntry_setEntry_self (l : List (String × ModuleId)) (k : String) (v : ModuleId) :
    getEntry (setEntry l k v) k = some v := by
  induction l with
  | nil => simp [setEntry, getEntry]
  | cons e rest ih =>
    by_cases h : e.1 = k
    · simp [setEntry, getEntry, h]
    · simp [setEntry, getEntry, h, ih]

theorem countKey_setEntry (l : List (String × ModuleId)) (k : String) (v : ModuleId)
    (h : countKey l k ≤ 1) : countKey (setEntry l k v) k = 1 := by
  induction l with
  | nil => simp [setEntry, countKey]
  | cons e rest ih =>
    by_cases he : e.1 = k
    · have hrest : countKey rest k = 0 := by
        simp [countKey, he] at h
        omega
      simp [setEntry, countKey, he, hrest]
    · have hrest : countKey rest k ≤ 1 := by
        simp [countKey, he] at h
        omega
      simp [setEntry, countKey, he, ih hrest]

/-
  Frame lemmas: the attachment writes touch only the parent and children
  fields, so names, stored records and the other instances are preserved.
-/

theorem setParent_moduleName (st : State) (m : ModuleId) (p : Option ModuleId) (i : ModuleId) :
    moduleName ((setParent st m p).modules i) = moduleName (st.modules i) := by
  by_cases h : i = m <;> simp [setParent, moduleName, h]

theorem setParent_children (st : State) (m : ModuleId) (p : Option ModuleId) (i : ModuleId) :
    ((setParent st m p).modules i).children = (st.modules i).children := by
  by_cases h : i = m <;> simp [setParent, h]

theorem setChildEntry_moduleName (st : State) (c : ModuleId) (k : String) (v : ModuleId)
    (i : ModuleId) :
    moduleName ((setChildEntry st c k v).modules i) = moduleName (st.modules i) := by
  by_cases h : i = c <;> simp [setChildEntry, moduleName, h]

theorem attach_moduleName (st : State) (c m : ModuleId) (i : ModuleId) :
    moduleName ((attach st c m).1.modules i) = moduleName (st.modules i) := by
  simp [attach, setChildEntry_moduleName, setParent_moduleName]

theorem attach_parent_self (st : State) (c m : ModuleId) :
    ((attach st c m).1.modules m).parent = some c := by
  by_cases h : m = c
  · subst h; simp [attach, setChildEntry, setParent]
  · simp [attach, setChildEntry, setParent, h]

theorem attach_children_caller (st : State) (c m : ModuleId) :
    ((attach st c m).1.modules c).children =
      setEntry ((st.modules c).children) (moduleName (st.modules m)) m := by
  simp [attach, setChildEntry, setParent_children, setParent_moduleName]

/-
  Frame lemmas for the constructor.
-/

theorem applyRouterPath_modules (st : State) (d : ConfigRecord) :
    ((applyRouterPath st d).2).modules = st.modules := by
  unfold applyRouterPath
  cases d.routerPath with
  | none => rfl
  | some p => by_cases h : p = "" <;> simp [h]

theorem applyRouterPath_nmodules (st : State) (d : ConfigRecord) :
    ((applyRouterPath st d).2).nmodules = st.nmodules := by
  unfold applyRouterPath
  cases d.routerPath with
  | none => rfl
  | some p => by_cases h : p = "" <;> simp [h]

theorem applyRouterPath_configs (st : State) (d : ConfigRecord) :
    ((applyRouterPath st d).2).configs = st.configs := by
  unfold applyRouterPath
  cases d.routerPath with
  | none => rfl
  | some p => by_cases h : p = "" <;> simp [h]

theorem applyRouterPath_nconfigs (st : State) (d : ConfigRecord) :
    ((applyRouterPath st d).2).nconfigs = st.nconfigs := by
  unfold applyRouterPath
  cases d.routerPath with
  | none => rfl
  | some p => by_cases h : p = "" <;> simp [h]

theorem defaultStartByDefault_name (d : ConfigRecord) :
    (defaultStartByDefault d).name = d.name := by
  unfold defaultStartByDefault
  by_cases h : d.startByDefault = none <;> simp [h]

theorem defaultStartByDefault_db (d : ConfigRecord) :
    (defaultStartByDefault d).db = d.db := by
  unfold defaultStartByDefault
  by_cases h : d.startByDefault = none <;> simp [h]

theorem defaultStartByDefault_app (d : ConfigRecord) :
    (defaultStartByDefault d).app = d.app := by
  unfold defaultStartByDefault
  by_cases h : d.startByDefault = none <;> simp [h]

theorem defaultStartByDefault_routerPath (d : ConfigRecord) :
    (defaultStartByDefault d).routerPath = d.routerPath := by
  unfold defaultStartByDefault
  by_cases h : d.startByDefault = none <;> simp [h]

theorem defaultStartByDefault_loaderModule (d : ConfigRecord) :
    (defaultStartByDefault d).loaderModule = d.loaderModule := by
  unfold defaultStartByDefault
  by_cases h : d.startByDefault = none <;> simp [h]

/-- The id returned by the constructor is the next free module id. -/
theorem mkWebserverModule_snd (st : State) (cid : ConfigId) (cn : String) :
    (mkWebserverModule st cid cn).2 = st.nmodules := by
  unfold mkWebserverModule
  simp [applyRouterPath_nmodules]

/-- The instance the constructor returns, with every field spelled out. -/
theorem builtModule_eq (st : State) (cid : ConfigId) (cn : String) :
    builtModule st cid cn =
      { _name := (defaultStartByDefault (st.configs cid)).name
        ctorName := cn
        db := (defaultStartByDefault (st.configs cid)).db
        app := (applyRouterPath
          { st with configs := fun j => if j = cid then defaultStartByDefault (st.configs cid)
                                        else st.configs j }
          (defaultStartByDefault (st.configs cid))).1
        startByDefault := ((defaultStartByDefault (st.configs cid)).startByDefault).getD true
        children := []
        parent := (defaultStartByDefault (st.configs cid)).loaderModule
        data := cid
        startCalls :=
          if ((defaultStartByDefault (st.configs cid)).startByDefault).getD true then 1 else 0 } := by
  unfold builtModule mkWebserverModule
  simp

/-- Instances other than the new one are untouched by the constructor. -/
theorem mkWebserverModule_modules_other (st : State) (cid : ConfigId) (cn : String)
    (j : ModuleId) (h : j ≠ st.nmodules) :
    (mkWebserverModule st cid cn).1.modules j = st.modules j := by
  unfold mkWebserverModule
  have hm := applyRouterPath_modules
    { st with configs := fun j => if j = cid then defaultStartByDefault (st.configs cid)
                                  else st.configs j }
    (defaultStartByDefault (st.configs cid))
  have hn := applyRouterPath_nmodules
    { st with configs := fun j => if j = cid then defaultStartByDefault (st.configs cid)
                                  else st.configs j }
    (defaultStartByDefault (st.configs cid))
  simp only []
  rw [hn, hm]
  simp [h]

theorem applyRouterPath_no_path (st : State) (d : ConfigRecord) (h : d.routerPath = none) :
    applyRouterPath st d = (d.app, st) := by
  simp [applyRouterPath, h]

theorem applyRouterPath_empty_path (st : State) (d : ConfigRecord)
    (h : d.routerPath = some "") :
    applyRouterPath st d = (d.app, st) := by
  simp [applyRouterPath, h]

/-- When the path is truthy, the retained router is the freshly allocated one,
    it starts with no mounts, and the supplied router gains exactly the one new
    mount of the fresh router under the path. -/
theorem applyRouterPath_scoped (st : State) (d : ConfigRecord) (p : String)
    (h : d.routerPath = some p) (hp : p ≠ "") (happ : d.app ≠ st.nrouters) :
    (applyRouterPath st d).1 = st.nrouters ∧
    ((applyRouterPath st d).2).routers d.app =
      { mounts := (st.routers d.app).mounts ++ [(p, st.nrouters)] } ∧
    ((applyRouterPath st d).2).routers st.nrouters = { mounts := [] } ∧
    ((applyRouterPath st d).2).nrouters = st.nrouters + 1 := by
  simp [applyRouterPath, h, hp, happ, Ne.symm happ]

theorem builtState_configs (st : State) (cid : ConfigId) (cn : String) :
    (builtState st cid cn).configs =
      fun j => if j = cid then defaultStartByDefault (st.configs cid) else st.configs j := by
  unfold builtState mkWebserverModule
  rw [applyRouterPath_configs]

theorem builtState_nconfigs (st : State) (cid : ConfigId) (cn : String) :
    (builtState st cid cn).nconfigs = st.nconfigs := by
  unfold builtState mkWebserverModule
  rw [applyRouterPath_nconfigs]

theorem builtState_routers (st : State) (cid : ConfigId) (cn : String) :
    (builtState st cid cn).routers =
      ((applyRouterPath
        { st with configs := fun j => if j = cid then defaultStartByDefault (st.configs cid)
                                      else st.configs j }
        (defaultStartByDefault (st.configs cid))).2).routers := by
  unfold builtState mkWebserverModule
  rfl

theorem builtState_nrouters (st : State) (cid : ConfigId) (cn : String) :
    (builtState st cid cn).nrouters =
      ((applyRouterPath
        { st with configs := fun j => if j = cid then defaultStartByDefault (st.configs cid)
                                      else st.configs j }
        (defaultStartByDefault (st.configs cid))).2).nrouters := by
  unfold builtState mkWebserverModule
  rfl

/-
  Concrete states used by witnesses and counterexamples.
-/

/-- A blank module instance. -/
def blankModule : WebserverModule :=
  { _name := none, ctorName := "", db := none, app := 0, startByDefault := true,
    children := [], parent := none, data := 0, startCalls := 0 }

/-- A module instance with an explicit name. -/
def namedModule (s : String) : WebserverModule :=
  { blankModule with _name := some s }

/-- A configuration record with every optional field unset and app router 0. -/
def blankConfig : ConfigRecord :=
  { db := none, app := 0, startByDefault := none, name := none,
    routerPath := none, loaderModule := none }

def blankRouter : RouterState := { mounts := [] }

/-- One existing module (id 0); the stored configuration names module 0 as
    loaderModule and disables auto start. -/
def stA : State :=
  { modules := fun _ => blankModule, nmodules := 1,
    configs := fun _ => { blankConfig with startByDefault := some false, loaderModule := some 0 },
    nconfigs := 1,
    routers := fun _ => blankRouter, nrouters := 1 }

/-- No modules; the stored configuration omits startByDefault. -/
def stB : State :=
  { modules := fun _ => blankModule, nmodules := 0,
    configs := fun _ => blankConfig, nconfigs := 1,
    routers := fun _ => blankRouter, nrouters := 1 }

/-- No modules; the stored configuration sets startByDefault to false. -/
def stC : State :=
  { modules := fun _ => blankModule, nmodules := 0,
    configs := fun _ => { blankConfig with startByDefault := some false }, nconfigs := 1,
    routers := fun _ => blankRouter, nrouters := 1 }

/-- Three modules; modules 1 and 2 both carry the explicit name x. -/
def stD : State :=
  { modules := fun j => if j = 0 then blankModule else namedModule "x", nmodules := 3,
    configs := fun _ => blankConfig, nconfigs := 0,
    routers := fun _ => blankRouter, nrouters := 1 }

/-- No modules; the stored configuration carries the non-empty router path api. -/
def stR : State :=
  { modules := fun _ => blankModule, nmodules := 0,
    configs := fun _ => { blankConfig with startByDefault := some false, routerPath := some "api" },
    nconfigs := 1,
    routers := fun _ => blankRouter, nrouters := 1 }

/-- No modules; the stored configuration carries the EMPTY router path. -/
def stE : State :=
  { modules := fun _ => blankModule, nmodules := 0,
    configs := fun _ => { blankConfig with startByDefault := some false, routerPath := some "" },
    nconfigs := 1,
    routers := fun _ => blankRouter, nrouters := 1 }

/-- No modules; the stored configuration carries the explicit name n. -/
def stN : State :=
  { modules := fun _ => blankModule, nmodules := 0,
    configs := fun _ => { blankConfig with startByDefault := some false, name := some "n" },
    nconfigs := 1,
    routers := fun _ => blankRouter, nrouters := 1 }

/-
  The claims.
-/

/-- C1, counterexample: the claim that the parent back-reference is never set by
    the child itself during its own construction before attachment fails on the
    code.  In state stA, constructing a module from the record that carries
    loaderModule module 0 (as the constructor of WebserverModule does at lines
    76 to 78) leaves the new instance with parent already set to module 0, while
    module 0 has attached no child at all. -/
theorem parent_set_during_construction_counterexample :
    (builtModule stA 0 "Child").parent = some 0 ∧
    ((builtState stA 0 "Child").modules 0).children = [] := by
  constructor <;> rfl

/-- C1 (amended): the constructor itself assigns the parent back-reference from
    the loaderModule field of the configuration whenever that field is supplied
    (so a factory-constructed child sets its own parent during construction,
    before attachment), and loadChild assigns it again at attachment; after
    loadChild returns, the parent of the loaded module is the attaching caller,
    both for a factory-constructed child and for an existing instance. -/
theorem parent_assignment :
    (∀ st cid cn, (builtModule st cid cn).parent = (st.configs cid).loaderModule) ∧
    (∀ st c cn o, ∃ st2 r,
      loadChild st c (JSArg.func (Factory.good cn)) o = Except.ok (st2, r) ∧
      (st2.modules r).parent = some c) ∧
    (∀ st c m o, ∃ st2,
      loadChild st c (JSArg.module m) o = Except.ok (st2, m) ∧
      (st2.modules m).parent = some c) := by
  refine ⟨?_, ?_, ?_⟩
  · intro st cid cn
    rw [builtModule_eq]
    exact defaultStartByDefault_loaderModule _
  · intro st c cn o
    exact ⟨_, _, rfl, attach_parent_self _ c _⟩
  · intro st c m o
    exact ⟨_, rfl, attach_parent_self _ c m⟩

/-- C2, counterexample: the claim that loadChild fails with the argument-kind
    error naming the actual runtime type also for null fails on the code.  At
    null the capability test evaluates the property read obj[__webserverModule],
    which itself throws a TypeError; loadChild therefore fails with that
    property-read error, not with the invalid-type error naming object (the
    typeof of null). -/
theorem load_null_counterexample :
    loadChild stA 0 JSArg.jsNull noOverrides =
      Except.error (LoadError.nullPropertyRead true) ∧
    LoadError.nullPropertyRead true ≠ LoadError.invalidType "object" :=
  ⟨rfl, fun h => nomatch h⟩

/-- C2 (amended): for every number, string, boolean or plain object passed to
    loadChild, the call fails with the invalid-type TypeError naming the actual
    runtime type of the value; for null and undefined the call fails instead
    with the TypeError raised by the property read inside the capability test,
    which does not name the runtime type. -/
theorem load_invalid_argument (st : State) (c : ModuleId) (o : Overrides) :
    (∀ n : Int, loadChild st c (JSArg.number n) o =
      Except.error (LoadError.invalidType "number")) ∧
    (∀ s, loadChild st c (JSArg.str s) o =
      Except.error (LoadError.invalidType "string")) ∧
    (∀ b, loadChild st c (JSArg.boolean b) o =
      Except.error (LoadError.invalidType "boolean")) ∧
    (loadChild st c JSArg.object o =
      Except.error (LoadError.invalidType "object")) ∧
    (loadChild st c JSArg.jsNull o =
      Except.error (LoadError.nullPropertyRead true)) ∧
    (loadChild st c JSArg.jsUndefined o =
      Except.error (LoadError.nullPropertyRead false)) :=
  ⟨fun _ => rfl, fun _ => rfl, fun _ => rfl, rfl, rfl, rfl⟩

/-- C6: a constructible factory whose constructed result still fails the module
    capability test makes loadChild fail with the invalid-module error (the
    TypeError Module given to load should be a WebserverModule), and that error
    is distinct from the argument-kind error. -/
theorem load_bad_factory (st : State) (c : ModuleId) (o : Overrides) :
    loadChild st c (JSArg.func Factory.bad) o = Except.error LoadError.notAModule ∧
    (∀ tn, LoadError.notAModule ≠ LoadError.invalidType tn) :=
  ⟨rfl, fun _ h => nomatch h⟩

/-- C6, witness: the invalid-module failure evaluated in the concrete state stA. -/
theorem load_bad_factory_witness :
    loadChild stA 0 (JSArg.func Factory.bad) noOverrides =
      Except.error LoadError.notAModule :=
  (load_bad_factory stA 0 noOverrides).1

/-- C7: loading an already-constructed instance is identity-preserving: the
    call returns the very same instance, its parent becomes the caller, and the
    children collection of the caller holds that same instance under its
    resolved name. -/
theorem load_existing_instance (st : State) (c m : ModuleId) (o : Overrides) :
    loadChild st c (JSArg.module m) o = Except.ok ((attach st c m).1, m) ∧
    ((attach st c m).1.modules m).parent = some c ∧
    getEntry ((attach st c m).1.modules c).children (moduleName (st.modules m)) = some m := by
  refine ⟨rfl, attach_parent_self st c m, ?_⟩
  rw [attach_children_caller]
  exact getEntry_setEntry_self _ _ _

/-- C3: the configuration the factory is invoked with (the object literal of
    line 115, embedded as loadChildSynthConfig and applied by loadChild to the
    caller stored record) is exactly the caller stored configuration record with
    parentNode (loaderModule) set to the caller and name forced to unset, with
    each field present in the overrides taking precedence over the inherited and
    forced fields, and each absent field inheriting. -/
theorem synth_config_merge (d : ConfigRecord) (c : ModuleId) (o : Overrides) :
    (o.name = none → (loadChildSynthConfig d c o).name = none) ∧
    (∀ v, o.name = some v → (loadChildSynthConfig d c o).name = v) ∧
    (o.loaderModule = none → (loadChildSynthConfig d c o).loaderModule = some c) ∧
    (∀ v, o.loaderModule = some v → (loadChildSynthConfig d c o).loaderModule = v) ∧
    (o.db = none → (loadChildSynthConfig d c o).db = d.db) ∧
    (∀ v, o.db = some v → (loadChildSynthConfig d c o).db = v) ∧
    (o.app = none → (loadChildSynthConfig d c o).app = d.app) ∧
    (∀ v, o.app = some v → (loadChildSynthConfig d c o).app = v) ∧
    (o.startByDefault = none →
      (loadChildSynthConfig d c o).startByDefault = d.startByDefault) ∧
    (∀ v, o.startByDefault = some v → (loadChildSynthConfig d c o).startByDefault = v) ∧
    (o.routerPath = none → (loadChildSynthConfig d c o).routerPath = d.routerPath) ∧
    (∀ v, o.routerPath = some v → (loadChildSynthConfig d c o).routerPath = v) := by
  refine ⟨?_, ?_, ?_, ?_, ?_, ?_, ?_, ?_, ?_, ?_, ?_, ?_⟩
  all_goals first
    | (intro h; simp [loadChildSynthConfig, applyOverrides, h])
    | (intro v h; simp [loadChildSynthConfig, applyOverrides, h])

/-- C3, witness: with no overrides, the synthesized configuration has the name
    unset and the caller as loaderModule. -/
theorem synth_config_merge_witness :
    (loadChildSynthConfig blankConfig 0 noOverrides).name = none ∧
    (loadChildSynthConfig blankConfig 0 noOverrides).loaderModule = some 0 :=
  ⟨(synth_config_merge blankConfig 0 noOverrides).1 rfl,
   (synth_config_merge blankConfig 0 noOverrides).2.2.1 rfl⟩

/-- C4: if autoStart (startByDefault) is explicitly true or omitted, the start
    hook has been invoked exactly once by the time the constructor returns; if
    explicitly false, it has not been invoked at all. -/
theorem auto_start_once (st : State) (cid : ConfigId) (cn : String) :
    ((st.configs cid).startByDefault = some true →
      (builtModule st cid cn).startCalls = 1) ∧
    ((st.configs cid).startByDefault = none →
      (builtModule st cid cn).startCalls = 1) ∧
    ((st.configs cid).startByDefault = some false →
      (builtModule st cid cn).startCalls = 0) := by
  refine ⟨?_, ?_, ?_⟩ <;> intro h <;> rw [builtModule_eq] <;>
    simp [defaultStartByDefault, h]

/-- C4, witness: in stB startByDefault is omitted and start ran once; in stC it
    is explicitly false and start never ran. -/
theorem auto_start_once_witness :
    (builtModule stB 0 "M").startCalls = 1 ∧ (builtModule stC 0 "M").startCalls = 0 :=
  ⟨(auto_start_once stB 0 "M").2.1 rfl, (auto_start_once stC 0 "M").2.2 rfl⟩

/-- C5, counterexample: the claim that a node constructed with routerPrefix
    (routerPath) set retains a freshly created sub-router distinct from the
    supplied router fails when the prefix is the empty string: the source tests
    the path for truthiness, so in stE (routerPath set to the empty string) the
    node retains exactly the supplied router and no fresh router is created. -/
theorem router_empty_path_counterexample :
    (stE.configs 0).routerPath = some "" ∧
    (builtModule stE 0 "M").app = (stE.configs 0).app ∧
    (builtState stE 0 "M").nrouters = stE.nrouters := by
  refine ⟨rfl, rfl, rfl⟩

/-- C5 (amended): for every node constructed with routerPath set to a NON-EMPTY
    string (the supplied router existing), the retained router is the freshly
    created sub-router, distinct from the supplied one, the supplied router
    gains exactly one mount of the fresh router under the prefix, and the fresh
    router starts empty; for a node constructed without routerPath, or with the
    empty-string routerPath, the retained router is exactly the supplied router
    and no router is created. -/
theorem router_scoping (st : State) (cid : ConfigId) (cn : String)
    (happ : (st.configs cid).app < st.nrouters) :
    (∀ p, (st.configs cid).routerPath = some p → p ≠ "" →
      (builtModule st cid cn).app = st.nrouters ∧
      (builtModule st cid cn).app ≠ (st.configs cid).app ∧
      ((builtState st cid cn).routers ((st.configs cid).app)).mounts =
        ((st.routers ((st.configs cid).app)).mounts) ++ [(p, st.nrouters)] ∧
      ((builtState st cid cn).routers ((builtModule st cid cn).app)).mounts = []) ∧
    ((st.configs cid).routerPath = none →
      (builtModule st cid cn).app = (st.configs cid).app ∧
      (builtState st cid cn).nrouters = st.nrouters) ∧
    ((st.configs cid).routerPath = some "" →
      (builtModule st cid cn).app = (st.configs cid).app ∧
      (builtState st cid cn).nrouters = st.nrouters) := by
  refine ⟨?_, ?_, ?_⟩
  · intro p hp hne
    have hd : (defaultStartByDefault (st.configs cid)).routerPath = some p := by
      rw [defaultStartByDefault_routerPath]; exact hp
    have hda : (defaultStartByDefault (st.configs cid)).app = (st.configs cid).app :=
      defaultStartByDefault_app _
    have hne2 : (defaultStartByDefault (st.configs cid)).app ≠
        ({ st with configs := fun j => if j = cid then defaultStartByDefault (st.configs cid)
                                       else st.configs j } : State).nrouters := by
      rw [hda]; exact Nat.ne_of_lt happ
    obtain ⟨h1, h2, h3, h4⟩ := applyRouterPath_scoped _ _ p hd hne hne2
    rw [hda] at h2
    refine ⟨?_, ?_, ?_, ?_⟩
    · rw [builtModule_eq]; exact h1
    · rw [builtModule_eq]
      rw [h1]
      exact Ne.symm (Nat.ne_of_lt happ)
    · rw [builtState_routers, h2]
    · rw [builtState_routers, builtModule_eq]
      rw [h1, h3]
  · intro hp
    have hd : (defaultStartByDefault (st.configs cid)).routerPath = none := by
      rw [defaultStartByDefault_routerPath]; exact hp
    have hnp := applyRouterPath_no_path
      { st with configs := fun j => if j = cid then defaultStartByDefault (st.configs cid)
                                    else st.configs j }
      (defaultStartByDefault (st.configs cid)) hd
    constructor
    · rw [builtModule_eq, hnp]
      exact defaultStartByDefault_app _
    · rw [builtState_nrouters, hnp]
  · intro hp
    have hd : (defaultStartByDefault (st.configs cid)).routerPath = some "" := by
      rw [defaultStartByDefault_routerPath]; exact hp
    have hnp := applyRouterPath_empty_path
      { st with configs := fun j => if j = cid then defaultStartByDefault (st.configs cid)
                                    else st.configs j }
      (defaultStartByDefault (st.configs cid)) hd
    constructor
    · rw [builtModule_eq, hnp]
      exact defaultStartByDefault_app _
    · rw [builtState_nrouters, hnp]

/-- C5, witness: in stR (routerPath api, one existing router), the constructed
    node retains the fresh router id and the supplied router carries the mount. -/
theorem router_scoping_witness :
    (builtModule stR 0 "M").app = stR.nrouters ∧
    ((builtState stR 0 "M").routers ((stR.configs 0).app)).mounts =
      ((stR.routers ((stR.configs 0).app)).mounts) ++ [("api", stR.nrouters)] := by
  have h := (router_scoping stR 0 "M" (by decide)).1 "api" rfl (by decide)
  exact ⟨h.1, h.2.2.1⟩

theorem attach_mk_moduleName (st' : State) (cid : ConfigId) (cn : String) (c i : ModuleId)
    (hi : i ≠ st'.nmodules) :
    moduleName ((attach (mkWebserverModule st' cid cn).1 c
      (mkWebserverModule st' cid cn).2).1.modules i) = moduleName (st'.modules i) := by
  rw [attach_moduleName, mkWebserverModule_modules_other st' cid cn i hi]

/-- C8: children keys are unique under replacement: loading two existing
    instances whose resolved names are both k under the same parent (whose
    children held at most one entry under k) leaves exactly one entry under k,
    holding the second-loaded child. -/
theorem children_unique_replacement (st : State) (c m1 m2 : ModuleId) (o1 o2 : Overrides)
    (k : String)
    (hk1 : moduleName (st.modules m1) = k)
    (hk2 : moduleName (st.modules m2) = k)
    (hcount : countKey ((st.modules c).children) k ≤ 1) :
    ∃ st1 st2,
      loadChild st c (JSArg.module m1) o1 = Except.ok (st1, m1) ∧
      loadChild st1 c (JSArg.module m2) o2 = Except.ok (st2, m2) ∧
      countKey ((st2.modules c).children) k = 1 ∧
      getEntry ((st2.modules c).children) k = some m2 := by
  refine ⟨(attach st c m1).1, (attach (attach st c m1).1 c m2).1, rfl, rfl, ?_, ?_⟩
  · rw [attach_children_caller, attach_moduleName, hk2, attach_children_caller, hk1]
    exact countKey_setEntry _ _ _ (le_of_eq (countKey_setEntry _ _ _ hcount))
  · rw [attach_children_caller, attach_moduleName, hk2]
    exact getEntry_setEntry_self _ _ _

/-- C8, witness: in stD, loading modules 1 and 2 (both named x) under module 0
    leaves exactly one entry under x, holding module 2. -/
theorem children_unique_replacement_witness :
    ∃ st1 st2,
      loadChild stD 0 (JSArg.module 1) noOverrides = Except.ok (st1, 1) ∧
      loadChild st1 0 (JSArg.module 2) noOverrides = Except.ok (st2, 2) ∧
      countKey ((st2.modules 0).children) "x" = 1 ∧
      getEntry ((st2.modules 0).children) "x" = some 2 :=
  children_unique_replacement stD 0 1 2 noOverrides noOverrides "x" rfl rfl (by decide)

/-- C9: the resolved name of a constructed node is the explicit configuration
    name when provided and non-empty, and otherwise (absent or empty) the
    concrete class name; and the resolution is stable: no loadChild call changes
    the resolved name of any pre-existing instance. -/
theorem name_resolution :
    (∀ st cid cn s, (st.configs cid).name = some s → s ≠ "" →
      moduleName (builtModule st cid cn) = s) ∧
    (∀ st cid cn, (st.configs cid).name = none →
      moduleName (builtModule st cid cn) = cn) ∧
    (∀ st cid cn, (st.configs cid).name = some "" →
      moduleName (builtModule st cid cn) = cn) ∧
    (∀ st c arg o st2 r, loadChild st c arg o = Except.ok (st2, r) →
      ∀ i, i < st.nmodules → moduleName (st2.modules i) = moduleName (st.modules i)) := by
  refine ⟨?_, ?_, ?_, ?_⟩
  · intro st cid cn s h hs
    rw [builtModule_eq]
    simp [moduleName, defaultStartByDefault_name, h, hs]
  · intro st cid cn h
    rw [builtModule_eq]
    simp [moduleName, defaultStartByDefault_name, h]
  · intro st cid cn h
    rw [builtModule_eq]
    simp [moduleName, defaultStartByDefault_name, h]
  · intro st c arg o st2 r h i hi
    cases arg with
    | jsNull => exact Except.noConfusion h
    | jsUndefined => exact Except.noConfusion h
    | number n => exact Except.noConfusion h
    | str s => exact Except.noConfusion h
    | boolean b => exact Except.noConfusion h
    | object => exact Except.noConfusion h
    | module m =>
      have h2 := Except.ok.inj h
      have h3 : _ = st2 := congrArg Prod.fst h2
      rw [← h3]
      exact attach_moduleName st c m i
    | func f =>
      cases f with
      | bad => exact Except.noConfusion h
      | good cn =>
        have h2 := Except.ok.inj h
        have h3 : _ = st2 := congrArg Prod.fst h2
        rw [← h3]
        exact attach_mk_moduleName _ _ cn c i (Nat.ne_of_lt hi)

/-- C9, witness: in stN the explicit name n wins; in stB the class name M wins. -/
theorem name_resolution_witness :
    moduleName (builtModule stN 0 "M") = "n" ∧ moduleName (builtModule stB 0 "M") = "M" :=
  ⟨name_resolution.1 stN 0 "M" "n" rfl (by decide), name_resolution.2.1 stB 0 "M" rfl⟩

/-- C10: when the startByDefault (autoStart) field is omitted, the constructor
    writes true into that field of the caller supplied record itself (the store
    at the same id holds the updated record, no new record is allocated), and
    the node retains that same record by reference, so the record loadChild
    later reads through this.data is the mutated caller record. -/
theorem config_record_mutation (st : State) (cid : ConfigId) (cn : String)
    (h : (st.configs cid).startByDefault = none) :
    (builtState st cid cn).configs cid =
      { st.configs cid with startByDefault := some true } ∧
    (builtModule st cid cn).data = cid ∧
    (builtState st cid cn).nconfigs = st.nconfigs ∧
    (builtState st cid cn).configs ((builtModule st cid cn).data) =
      { st.configs cid with startByDefault := some true } := by
  have hc : (builtState st cid cn).configs cid = defaultStartByDefault (st.configs cid) := by
    rw [builtState_configs]
    simp
  have hd : defaultStartByDefault (st.configs cid) =
      { st.configs cid with startByDefault := some true } := by
    simp [defaultStartByDefault, h]
  have hdata : (builtModule st cid cn).data = cid := by rw [builtModule_eq]
  refine ⟨hc.trans hd, hdata, builtState_nconfigs st cid cn, ?_⟩
  rw [hdata]
  exact hc.trans hd

/-- C10, witness: the mutation and the retained reference evaluated in stB. -/
theorem config_record_mutation_witness :
    (builtState stB 0 "M").configs 0 = { stB.configs 0 with startByDefault := some true } ∧
    (builtModule stB 0 "M").data = 0 := by
  have h := config_record_mutation stB 0 "M" rfl
  exact ⟨h.1, h.2.1⟩

end WSSpec
